import Mathlib

/-!
Verification of the spawn scheduling engine of the alarms facade
(`apps/client/src/app/core/alarms/+state/alarms.facade.ts`).

Timestamps are modelled as natural numbers of milliseconds since the epoch,
mirroring the millisecond values of the JavaScript `Date` objects used by the
source. The hour / minute / second accessors mirror `getUTCHours`,
`getUTCMinutes` and `getUTCSeconds`. JavaScript `%` on possibly negative
integers is the truncated remainder, modelled by `jsMod`. `Math.floor` of an
integer quotient with a positive divisor is the Euclidean division of `Int`.
External collaborators (the Eorzean time service, the weather service and the
settings service) are not part of the sources and are modelled from the spec.
-/

/-- Hour of day of a millisecond timestamp, as `Date.getUTCHours`. -/
def hourOf (t : Nat) : Nat := t / 3600000 % 24

/-- Minute of hour of a millisecond timestamp, as `Date.getUTCMinutes`. -/
def minuteOf (t : Nat) : Nat := t / 60000 % 60

/-- Second of minute of a millisecond timestamp, as `Date.getUTCSeconds`. -/
def secondOf (t : Nat) : Nat := t / 1000 % 60

/-- JavaScript remainder operator on integers: truncated division remainder,
taking the sign of the dividend. -/
def jsMod (a b : Int) : Int := if a < 0 then -((-a) % b) else a % b

/-- Modelled from the spec: the external constant
`EorzeanTimeService.EPOCH_TIME_FACTOR`, the fixed game/real time dilation
ratio (1440 Eorzean minutes pass in 70 Earth minutes, hence 144 / 7). -/
def EPOCH_TIME_FACTOR : ℚ := 144 / 7

/-- Modelled from the spec: `EorzeanTimeService.toEarthTime`, converting a
duration in Eorzean minutes to Earth minutes by the fixed dilation factor. -/
def toEarthTime (minutes : ℚ) : ℚ := minutes / EPOCH_TIME_FACTOR

/-- Result record of the resolver, as the `NextSpawn` interface: the spawn
hour, the number of days ahead (an integer: the weather branch computes it by
`Math.floor`, which can be negative), and the despawn hour. -/
structure NextSpawn where
  hours : Nat
  days : Int
  despawn : Nat
  deriving DecidableEq

/-- An alarm pattern, keeping the fields of `Alarm` that the scheduling code
reads. `spawns` is `none` when the `spawns` property is `undefined`;
`weathers` is `none` when the `weathers` property is absent (the source tests
its truthiness). -/
structure Alarm where
  itemId : Nat
  mapId : Nat
  spawns : Option (List Nat)
  duration : Nat
  weathers : Option (List Nat)
  deriving DecidableEq

/-- Modelled from the spec: the slice of the external settings service read
by the facade (`settings.alarmHoursBefore`, the pre-spawn warning lead time
in hours). -/
structure Settings where
  alarmHoursBefore : ℚ
  deriving DecidableEq

/-- Modelled from the spec: the external weather timeline oracle
(`WeatherService`). `getNextWeatherStart mapId weather fromTime` is the start
of the next occurrence of the weather at or around `fromTime` (it may start
before `fromTime` when the weather is already active); `nextWeatherTime
start` is the time the weather of the occurrence starting at `start` ends. -/
structure WeatherService where
  getNextWeatherStart : Nat → Nat → Nat → Nat
  nextWeatherTime : Nat → Nat

/-- Display record for one alarm, as the `AlarmDisplay` class. -/
structure AlarmDisplay where
  alarm : Alarm
  spawned : Bool
  played : Bool
  remainingTime : ℚ
  nextSpawn : NextSpawn
  deriving DecidableEq

/-- The hour count of `getMinutesBefore`:
`(hours - currentTime.getUTCHours()) % 24` after converting hour 0 to 24,
with the JavaScript remainder. -/
def gmbResHours (t : Nat) (h : Nat) : Int :=
  jsMod ((if h = 0 then 24 else (h : Int)) - (hourOf t : Int)) 24

/-- The minute count of `getMinutesBefore` after its negative wraparound
adjustment (`if (resMinutes < 0) resMinutes += 1440`). -/
def gmbResMinutes (t : Nat) (h : Nat) (minutes : Int) : Int :=
  if gmbResHours t h * 60 + minutes - (minuteOf t : Int) < 0 then
    gmbResHours t h * 60 + minutes - (minuteOf t : Int) + 1440
  else
    gmbResHours t h * 60 + minutes - (minuteOf t : Int)

/-- The second count of `getMinutesBefore` after its adjustment
(`if (resSeconds < 0) resSeconds += 360`, with the literal 360 of the
source). -/
def gmbResSeconds (t : Nat) (h : Nat) (minutes : Int) : Int :=
  if gmbResHours t h * 3600 + minutes * 60 - (secondOf t : Int) < 0 then
    gmbResHours t h * 3600 + minutes * 60 - (secondOf t : Int) + 360
  else
    gmbResHours t h * 3600 + minutes * 60 - (secondOf t : Int)

/-- `AlarmsFacade.getMinutesBefore`: amount of Eorzean minutes before the
hour of `spawn` happens, plus the day offset term
`spawn.days * 1440 / EPOCH_TIME_FACTOR`. -/
def getMinutesBefore (t : Nat) (spawn : NextSpawn) (minutes : Int) : ℚ :=
  (gmbResMinutes t spawn.hours minutes : ℚ)
    + (jsMod (gmbResSeconds t spawn.hours minutes) 60 : ℚ) / 60
    + (spawn.days : ℚ) * 1440 / EPOCH_TIME_FACTOR

/-- The comparator of `getNextSpawn`'s `alarm.spawns.sort`, as the predicate
"the comparator returns a negative number": an already spawned slot sorts
first, otherwise the slot with the smaller time before spawn sorts first.
The source comparator never returns 0. -/
def spawnCmpLT (a : Alarm) (t : Nat) (x y : Nat) : Bool :=
  if getMinutesBefore t ⟨(x + a.duration) % 24, 0, 0⟩ 0 < getMinutesBefore t ⟨x, 0, 0⟩ 0 then
    true
  else if getMinutesBefore t ⟨(y + a.duration) % 24, 0, 0⟩ 0 < getMinutesBefore t ⟨y, 0, 0⟩ 0 then
    false
  else
    decide (getMinutesBefore t ⟨x, 0, 0⟩ 0 < getMinutesBefore t ⟨y, 0, 0⟩ 0)

/-- The sort of the spawn hours performed by `getNextSpawn`
(`alarm.spawns.sort(comparator)`), modelled as an insertion sort driven by
"the comparator returns a negative number". -/
def sortSpawns (a : Alarm) (t : Nat) (l : List Nat) : List Nat :=
  List.insertionSort (fun x y => spawnCmpLT a t x y = true) l

/-- JavaScript `Date.setUTCHours h` on a millisecond timestamp: replace the
hour of day, keeping the day and the sub-hour part. -/
def setHours (d : Nat) (h : Nat) : Nat :=
  d / 86400000 * 86400000 + h * 3600000 + d % 3600000

/-- Ascending sort of millisecond timestamps, as
`.sort((a, b) => a.getTime() - b.getTime())`. -/
def sortTimes (l : List Nat) : List Nat :=
  List.insertionSort (fun x y => x ≤ y) l

/-- Inner loop of `findWeatherSpawnCombination` over the sorted weather
occurrence starts, for one candidate spawn hour. -/
def weatherSearchInner (ws : WeatherService) (time : Nat) (spawn despawn : Nat) :
    List Nat → Option NextSpawn
  | [] => none
  | weatherSpawn :: rest =>
    let weatherStart := hourOf weatherSpawn
    let weatherStop :=
      if hourOf (ws.nextWeatherTime weatherSpawn) = 0 then 24
      else hourOf (ws.nextWeatherTime weatherSpawn)
    if weatherStart < despawn ∧ spawn ≤ weatherStart then
      some ⟨weatherStart, ((weatherSpawn : Int) - (time : Int)) / 86400000, despawn⟩
    else if spawn < weatherStop then
      some ⟨spawn, ((setHours weatherSpawn spawn : Int) - (time : Int)) / 86400000, weatherStop⟩
    else
      weatherSearchInner ws time spawn despawn rest

/-- Outer loop of `findWeatherSpawnCombination` over the sorted candidate
spawn hours. -/
def weatherSearchLoop (ws : WeatherService) (duration : Nat) (time : Nat) :
    List Nat → List Nat → Option NextSpawn
  | [], _ => none
  | spawn :: rest, weatherSpawns =>
    (weatherSearchInner ws time spawn ((spawn + duration) % 24) weatherSpawns).orElse fun _ =>
      weatherSearchLoop ws duration time rest weatherSpawns

/-- `AlarmsFacade.findWeatherSpawnCombination`. The source recurses with no
bound; the recursion is made structural on an explicit `fuel` count of
rounds, `none` meaning that the given number of rounds did not suffice (or
that the source would have crashed on an empty occurrence list). -/
def findWeatherSpawnCombination (ws : WeatherService) (a : Alarm)
    (sortedSpawns : List Nat) (time : Nat) :
    Nat → Nat → Option NextSpawn
  | 0, _ => none
  | fuel + 1, iteration =>
    let weatherSpawns :=
      sortTimes ((a.weathers.getD []).map fun w => ws.getNextWeatherStart a.mapId w iteration)
    (weatherSearchLoop ws a.duration time sortedSpawns weatherSpawns).orElse fun _ =>
      weatherSpawns.getLast?.bind fun latest =>
        findWeatherSpawnCombination ws a sortedSpawns time fuel (latest + 86400000)

/-- `AlarmsFacade.getNextSpawn`. `none` models the undefined result of the
source on a missing or empty `spawns` array (no error value exists there). -/
def getNextSpawn (ws : WeatherService) (fuel : Nat) (a : Alarm) (t : Nat) :
    Option NextSpawn :=
  match a.spawns with
  | none => none
  | some spawns =>
    let sortedSpawns := sortSpawns a t spawns
    if a.weathers.isSome then
      findWeatherSpawnCombination ws a sortedSpawns t fuel t
    else
      sortedSpawns.head?.map fun h => ⟨h, 0, (h + a.duration) % 24⟩

/-- Body of `AlarmsFacade.isSpawned` applied to an already resolved
`NextSpawn`: nothing spawns for more than a day ahead, hour 0 is converted
to 24 on both boundaries, and the hour test wraps across midnight when the
spawn hour exceeds the despawn hour. -/
def spawnedAt (t : Nat) (nextSpawn : NextSpawn) : Bool :=
  if nextSpawn.days > 0 then
    false
  else
    let spawn := if nextSpawn.hours = 0 then 24 else nextSpawn.hours
    let despawn := if nextSpawn.despawn = 0 then 24 else nextSpawn.despawn
    if despawn < spawn then
      decide (spawn ≤ hourOf t ∨ hourOf t < despawn)
    else
      decide (spawn ≤ hourOf t ∧ hourOf t < despawn)

/-- `AlarmsFacade.isSpawned`. -/
def isSpawned (ws : WeatherService) (fuel : Nat) (a : Alarm) (t : Nat) : Option Bool :=
  (getNextSpawn ws fuel a t).map (spawnedAt t)

/-- `AlarmsFacade.isPlayed`: the minutes before the resolved next spawn are
below `settings.alarmHoursBefore * 60`. The spawned state is not consulted. -/
def isPlayed (ws : WeatherService) (fuel : Nat) (s : Settings) (a : Alarm) (t : Nat) :
    Option Bool :=
  (getNextSpawn ws fuel a t).map fun ns =>
    decide (getMinutesBefore t ns 0 < s.alarmHoursBefore * 60)

/-- `AlarmsFacade.createDisplay`: builds the display record; when spawned,
the remaining time counts to the despawn boundary (the spawn hour shifted by
the duration), otherwise to the next spawn, and is converted to Earth time. -/
def createDisplay (ws : WeatherService) (fuel : Nat) (s : Settings) (a : Alarm) (t : Nat) :
    Option AlarmDisplay := do
  let spawned ← isSpawned ws fuel a t
  let played ← isPlayed ws fuel s a t
  let remainingTime ←
    if spawned then
      (getNextSpawn ws fuel a t).map fun spawn =>
        getMinutesBefore t ⟨(spawn.hours + a.duration) % 24, spawn.days, spawn.despawn⟩ 0
    else
      (getNextSpawn ws fuel a t).map fun ns => getMinutesBefore t ns 0
  let nextSpawn ← getNextSpawn ws fuel a t
  pure ⟨a, spawned, played, toEarthTime remainingTime, nextSpawn⟩

/-- The comparator of `AlarmsFacade.sortAlarmDisplays`, as the predicate
"the comparator returns a negative number": spawned entries first, then
ascending remaining time. The source comparator never returns 0. -/
def cmpDisplayLT (x y : AlarmDisplay) : Bool :=
  if x.spawned && y.spawned then decide (x.remainingTime < y.remainingTime)
  else if x.spawned then true
  else if y.spawned then false
  else decide (x.remainingTime < y.remainingTime)

/-- `AlarmsFacade.sortAlarmDisplays`, modelled as an insertion sort driven by
"the comparator returns a negative number". -/
def sortAlarmDisplays (l : List AlarmDisplay) : List AlarmDisplay :=
  List.insertionSort (fun x y => cmpDisplayLT x y = true) l

/-- `AlarmsFacade.createDisplayArray`: alarms with an undefined `spawns`
array are filtered out, the rest are turned into displays and sorted.
`none` propagates a failure of `createDisplay` on a kept alarm. -/
def createDisplayArray (ws : WeatherService) (fuel : Nat) (s : Settings)
    (alarms : List Alarm) (t : Nat) : Option (List AlarmDisplay) :=
  ((alarms.filter fun a => a.spawns.isSome).mapM fun a => createDisplay ws fuel s a t).map
    sortAlarmDisplays

/-- State passing form of `AlarmsFacade.getNextSpawn`, making explicit that
`alarm.spawns.sort(...)` sorts the stored array in place: the second
component is the alarm record as it is left after the call. -/
def resolveAlarmState (ws : WeatherService) (fuel : Nat) (a : Alarm) (t : Nat) :
    Option NextSpawn × Alarm :=
  match a.spawns with
  | none => (none, a)
  | some spawns =>
    let sortedSpawns := sortSpawns a t spawns
    ( if a.weathers.isSome then
        findWeatherSpawnCombination ws a sortedSpawns t fuel t
      else
        sortedSpawns.head?.map fun h => ⟨h, 0, (h + a.duration) % 24⟩,
      { a with spawns := some sortedSpawns } )

/-- Wraparound-aware half-open window containment, following the words of
the spec: when the window does not cross midnight the hour must lie between
the spawn and despawn hours, otherwise on either side of midnight. -/
def inWindow (h s d : Nat) : Prop :=
  if s < d then s ≤ h ∧ h < d else (s ≤ h ∨ h < d)

/-- The ordering the display sort is expected to produce: a spawned entry
never follows a non-spawned one, and inside a partition the remaining time
is non-decreasing. -/
def dispLE (x y : AlarmDisplay) : Prop :=
  (y.spawned = true → x.spawned = true) ∧
    (x.spawned = y.spawned → x.remainingTime ≤ y.remainingTime)

lemma jsMod_bounds (a b : Int) (hb : 0 < b) : -b < jsMod a b ∧ jsMod a b < b := by
  unfold jsMod
  split
  · have h1 := Int.emod_nonneg (-a) (by omega : b ≠ 0)
    have h2 := Int.emod_lt_of_pos (-a) hb
    omega
  · have h1 := Int.emod_nonneg a (by omega : b ≠ 0)
    have h2 := Int.emod_lt_of_pos a hb
    omega

lemma jsMod_nonneg (a b : Int) (ha : 0 ≤ a) (hb : 0 < b) : 0 ≤ jsMod a b := by
  unfold jsMod
  split
  · omega
  · exact Int.emod_nonneg a (by omega)

lemma gmbResHours_bounds (t h : Nat) : -24 < gmbResHours t h ∧ gmbResHours t h < 24 :=
  jsMod_bounds _ 24 (by norm_num)

lemma minuteOf_lt (t : Nat) : minuteOf t < 60 := Nat.mod_lt _ (by norm_num)

lemma secondOf_lt (t : Nat) : secondOf t < 60 := Nat.mod_lt _ (by norm_num)

lemma hourOf_lt (t : Nat) : hourOf t < 24 := Nat.mod_lt _ (by norm_num)

lemma gmb_scaled_nonneg (t h : Nat) :
    0 ≤ 60 * gmbResMinutes t h 0 + jsMod (gmbResSeconds t h 0) 60 := by
  have hb := gmbResHours_bounds t h
  have hm := minuteOf_lt t
  have hs := secondOf_lt t
  unfold gmbResMinutes gmbResSeconds
  split_ifs with h1 h2 h2
  · have := jsMod_bounds (gmbResHours t h * 3600 + 0 * 60 - (secondOf t : Int) + 360) 60
      (by norm_num)
    omega
  · have hrs : 0 ≤ gmbResHours t h * 3600 + 0 * 60 - (secondOf t : Int) := by omega
    have := jsMod_nonneg _ 60 hrs (by norm_num)
    omega
  · have hrh : 0 ≤ gmbResHours t h := by omega
    have hrs : 0 ≤ gmbResHours t h * 3600 + 0 * 60 - (secondOf t : Int) + 360 := by omega
    have := jsMod_nonneg _ 60 hrs (by norm_num)
    omega
  · have hrs : 0 ≤ gmbResHours t h * 3600 + 0 * 60 - (secondOf t : Int) := by omega
    have := jsMod_nonneg _ 60 hrs (by norm_num)
    omega

lemma getMinutesBefore_nonneg (t : Nat) (ns : NextSpawn) (hd : 0 ≤ ns.days) :
    0 ≤ getMinutesBefore t ns 0 := by
  unfold getMinutesBefore
  have key := gmb_scaled_nonneg t ns.hours
  have h60 : ((gmbResMinutes t ns.hours 0 : Int) : ℚ)
        + ((jsMod (gmbResSeconds t ns.hours 0) 60 : Int) : ℚ) / 60
      = ((60 * gmbResMinutes t ns.hours 0 + jsMod (gmbResSeconds t ns.hours 0) 60 : Int) : ℚ)
        / 60 := by
    push_cast
    ring
  rw [h60]
  have ha : (0 : ℚ) ≤
      ((60 * gmbResMinutes t ns.hours 0 + jsMod (gmbResSeconds t ns.hours 0) 60 : Int) : ℚ)
        / 60 := by
    apply div_nonneg _ (by norm_num)
    exact_mod_cast key
  have hdq : (0 : ℚ) ≤ (ns.days : ℚ) := by exact_mod_cast hd
  have hc : (0 : ℚ) ≤ (ns.days : ℚ) * 1440 / EPOCH_TIME_FACTOR := by
    apply div_nonneg (mul_nonneg hdq (by norm_num))
    norm_num [EPOCH_TIME_FACTOR]
  exact add_nonneg ha hc

lemma toEarthTime_nonneg (m : ℚ) (hm : 0 ≤ m) : 0 ≤ toEarthTime m := by
  unfold toEarthTime
  apply div_nonneg hm
  norm_num [EPOCH_TIME_FACTOR]


lemma getNextSpawn_nonweather (ws : WeatherService) (fuel : Nat) (a : Alarm) (t : Nat)
    (l : List Nat) (hsp : a.spawns = some l) (hw : a.weathers = none) (ns : NextSpawn)
    (hg : getNextSpawn ws fuel a t = some ns) :
    ∃ h0, (sortSpawns a t l).head? = some h0 ∧ ns = ⟨h0, 0, (h0 + a.duration) % 24⟩ := by
  simp only [getNextSpawn, hsp, hw, Option.isSome_none, Bool.false_eq_true, if_false] at hg
  cases hh : (sortSpawns a t l).head? with
  | none => rw [hh] at hg; simp at hg
  | some h0 =>
    rw [hh] at hg
    simp only [Option.map_some', Option.some.injEq] at hg
    exact ⟨h0, rfl, hg.symm⟩

lemma mem_of_sortSpawns_head (a : Alarm) (t : Nat) (l : List Nat) (h0 : Nat)
    (hh : (sortSpawns a t l).head? = some h0) : h0 ∈ l := by
  have hmem : h0 ∈ sortSpawns a t l := by
    cases hs : sortSpawns a t l with
    | nil => rw [hs] at hh; simp at hh
    | cons x xs =>
      rw [hs] at hh
      simp only [List.head?_cons, Option.some.injEq] at hh
      rw [← hh]
      exact List.mem_cons_self x xs
  exact (List.perm_insertionSort _ l).mem_iff.mp hmem

lemma spawnedAt_true_of_inWindow (t : Nat) (ns : NextSpawn) (hd : ns.days = 0)
    (hh : ns.hours < 24) (hdp : ns.despawn < 24) (hne : ns.hours ≠ ns.despawn)
    (hin : inWindow (hourOf t) ns.hours ns.despawn) : spawnedAt t ns = true := by
  have hht := hourOf_lt t
  unfold spawnedAt
  rw [hd]
  rw [if_neg (by omega : ¬((0 : Int) > 0))]
  unfold inWindow at hin
  by_cases h0 : ns.hours = 0 <;> by_cases hd0 : ns.despawn = 0 <;>
    simp only [h0, hd0, if_true, if_false, if_neg, if_pos] <;>
    split_ifs at hin ⊢ <;> simp only [decide_eq_true_eq] <;> omega

lemma createDisplay_eq (ws : WeatherService) (fuel : Nat) (s : Settings) (a : Alarm)
    (t : Nat) (ns : NextSpawn) (hg : getNextSpawn ws fuel a t = some ns) :
    createDisplay ws fuel s a t = some
      { alarm := a
        spawned := spawnedAt t ns
        played := decide (getMinutesBefore t ns 0 < s.alarmHoursBefore * 60)
        remainingTime := toEarthTime (if spawnedAt t ns
          then getMinutesBefore t ⟨(ns.hours + a.duration) % 24, ns.days, ns.despawn⟩ 0
          else getMinutesBefore t ns 0)
        nextSpawn := ns } := by
  unfold createDisplay isSpawned isPlayed
  rw [hg]
  cases hsp : spawnedAt t ns <;> simp [hsp, Option.bind]

lemma dispLE_trans {x y z : AlarmDisplay} (h1 : dispLE x y) (h2 : dispLE y z) : dispLE x z := by
  unfold dispLE at *
  cases hx : x.spawned <;> cases hy : y.spawned <;> cases hz : z.spawned <;>
    simp [hx, hy, hz] at h1 h2 ⊢ <;> try linarith

lemma dispLE_of_lt (x y : AlarmDisplay) (h : cmpDisplayLT x y = true) : dispLE x y := by
  unfold cmpDisplayLT at h
  unfold dispLE
  cases hx : x.spawned <;> cases hy : y.spawned <;> simp [hx, hy] at h ⊢ <;>
    exact le_of_lt h

lemma dispLE_of_not_lt (x y : AlarmDisplay) (h : ¬ cmpDisplayLT x y = true) : dispLE y x := by
  unfold cmpDisplayLT at h
  unfold dispLE
  cases hx : x.spawned <;> cases hy : y.spawned <;> simp [hx, hy] at h ⊢ <;>
    exact h

lemma pairwise_orderedInsert (x : AlarmDisplay) (l : List AlarmDisplay)
    (hl : l.Pairwise dispLE) :
    (List.orderedInsert (fun a b => cmpDisplayLT a b = true) x l).Pairwise dispLE := by
  induction l with
  | nil => simp [List.orderedInsert]
  | cons y ys ih =>
    obtain ⟨hy, hys⟩ := List.pairwise_cons.mp hl
    simp only [List.orderedInsert]
    by_cases hc : cmpDisplayLT x y = true
    · rw [if_pos hc]
      refine List.pairwise_cons.mpr ⟨?_, hl⟩
      intro z hz
      rcases List.mem_cons.mp hz with hzy | hz2
      · rw [hzy]
        exact dispLE_of_lt x y hc
      · exact dispLE_trans (dispLE_of_lt x y hc) (hy z hz2)
    · rw [if_neg hc]
      refine List.pairwise_cons.mpr ⟨?_, ih hys⟩
      intro z hz
      rcases (List.mem_orderedInsert _).mp hz with hzx | hz2
      · rw [hzx]
        exact dispLE_of_not_lt x y hc
      · exact hy z hz2

lemma sortAlarmDisplays_pairwise (l : List AlarmDisplay) :
    (sortAlarmDisplays l).Pairwise dispLE := by
  unfold sortAlarmDisplays
  induction l with
  | nil => simp
  | cons x xs ih =>
    simp only [List.insertionSort]
    exact pairwise_orderedInsert x _ ih

/-- A weather timeline on which no spawn hour and weather occurrence ever
match the pattern below: every query reports an occurrence starting exactly
at the query time and ending one hour later. -/
def mismatchWs : WeatherService := ⟨fun _ _ t => t, fun t => t + 3600000⟩

/-- A weather gated pattern (spawn hour 23, duration 1, so a despawn hour of
0) that never matches the occurrences reported by the timeline above when
queried at a midnight timestamp. -/
def mismatchAlarm : Alarm := ⟨3, 0, some [23], 1, some [0]⟩

lemma inner_eval (n : Nat) : weatherSearchInner mismatchWs 0 23 0 [n * 86400000] = none := by
  have h0 : hourOf (n * 86400000) = 0 := by unfold hourOf; omega
  have h1 : hourOf (mismatchWs.nextWeatherTime (n * 86400000)) = 1 := by
    show hourOf (n * 86400000 + 3600000) = 1
    unfold hourOf
    omega
  simp only [weatherSearchInner, h0, h1]
  norm_num

lemma loop_eval (n : Nat) :
    weatherSearchLoop mismatchWs mismatchAlarm.duration 0 [23] [n * 86400000] = none := by
  simp only [weatherSearchLoop, mismatchAlarm]
  norm_num
  rw [inner_eval n]

lemma mismatch_round (fuel n : Nat) :
    findWeatherSpawnCombination mismatchWs mismatchAlarm [23] 0 (fuel + 1) (n * 86400000) =
      findWeatherSpawnCombination mismatchWs mismatchAlarm [23] 0 fuel ((n + 1) * 86400000) := by
  have hadd : n * 86400000 + 86400000 = (n + 1) * 86400000 := by ring
  have hws : sortTimes ((mismatchAlarm.weathers.getD []).map fun w =>
      mismatchWs.getNextWeatherStart mismatchAlarm.mapId w (n * 86400000)) = [n * 86400000] := rfl
  rw [findWeatherSpawnCombination]
  simp only [hws, loop_eval n]
  simp [hadd]

lemma mismatch_search_none (fuel n : Nat) :
    findWeatherSpawnCombination mismatchWs mismatchAlarm [23] 0 fuel (n * 86400000) = none := by
  induction fuel generalizing n with
  | zero => rfl
  | succ k ih =>
    rw [mismatch_round k n]
    exact ih (n + 1)

lemma mismatch_getNextSpawn (fuel : Nat) :
    getNextSpawn mismatchWs fuel mismatchAlarm 0 = none := by
  have hstep : getNextSpawn mismatchWs fuel mismatchAlarm 0 =
      findWeatherSpawnCombination mismatchWs mismatchAlarm [23] 0 fuel 0 := rfl
  rw [hstep, show (0 : Nat) = 0 * 86400000 from rfl]
  exact mismatch_search_none fuel 0

/-- A weather oracle with trivial behaviour, used to instantiate the weather
service argument of the embedded operations in scenarios whose pattern has
no weather requirement (the oracle is then never consulted). -/
def dummyWs : WeatherService := ⟨fun _ _ t => t, fun t => t⟩

/-- The pattern of the scenarios in the spec: spawn hours 8 and 20, duration
2, no weather requirement. -/
def scenarioAlarm : Alarm := ⟨1, 0, some [8, 20], 2, none⟩

/-- A single-hour pattern: spawn hour 8, duration 2, no weather. -/
def hour8Alarm : Alarm := ⟨2, 0, some [8], 2, none⟩

/-- Settings with one hour of warning lead time. -/
def oneHourSettings : Settings := ⟨1⟩

/-- Settings with no warning lead time. -/
def zeroSettings : Settings := ⟨0⟩

/-- A weather timeline reporting, for any query, the occurrence running from
hour 22 of day zero to hour 2 of day one (an occurrence already active at
the query times of interest, as in scenario D of the spec). -/
def overlapWs : WeatherService := ⟨fun _ _ _ => 79200000, fun _ => 93600000⟩

/-- A weather gated pattern spawning at midnight for 2 hours. -/
def midnightAlarm : Alarm := ⟨5, 0, some [0], 2, some [0]⟩

/-- A pattern whose spawns array is present but empty. -/
def emptySpawnsAlarm : Alarm := ⟨4, 0, some [], 5, none⟩

/-- A pattern with a duration of 0, outside the documented range
of 1 to 23. -/
def zeroDurationAlarm : Alarm := ⟨6, 0, some [8], 0, none⟩

/-- A pattern whose spawns property is undefined. -/
def noSpawnsAlarm : Alarm := ⟨9, 0, none, 2, none⟩

/-- A non-spawned display with a remaining time of 5 minutes. -/
def tieDisplayA : AlarmDisplay := ⟨scenarioAlarm, false, false, 5, ⟨8, 0, 10⟩⟩

/-- Another non-spawned display with the same remaining time. -/
def tieDisplayB : AlarmDisplay := ⟨hour8Alarm, false, false, 5, ⟨9, 0, 11⟩⟩

/-- The display built for the scenario pattern at hour 9 of day zero. -/
def scenarioDisplay9 : AlarmDisplay := ⟨scenarioAlarm, true, false, 35 / 12, ⟨8, 0, 10⟩⟩

/-- The display built for the single-hour pattern at hour 8 sharp. -/
def hour8Display : AlarmDisplay := ⟨hour8Alarm, true, true, 35 / 6, ⟨8, 0, 10⟩⟩

lemma getNextSpawn_days_zero (ws : WeatherService) (fuel : Nat) (a : Alarm) (t : Nat)
    (ns : NextSpawn) (hw : a.weathers = none) (hg : getNextSpawn ws fuel a t = some ns) :
    ns.days = 0 := by
  cases hsp : a.spawns with
  | none =>
    simp only [getNextSpawn, hsp] at hg
    exact absurd hg (by simp)
  | some l =>
    obtain ⟨h0, hh, hns⟩ := getNextSpawn_nonweather ws fuel a t l hsp hw ns hg
    rw [hns]

instance (h s d : Nat) : Decidable (inWindow h s d) :=
  if hc : s < d then decidable_of_iff (s ≤ h ∧ h < d) (by simp [inWindow, hc])
  else decidable_of_iff (s ≤ h ∨ h < d) (by simp [inWindow, hc])

lemma sortSpawns_t21 : sortSpawns scenarioAlarm 75600000 [8, 20] = [20, 8] := by
  norm_num [sortSpawns, List.insertionSort, List.orderedInsert, spawnCmpLT, getMinutesBefore,
    gmbResMinutes, gmbResSeconds, gmbResHours, jsMod, hourOf, minuteOf, secondOf,
    EPOCH_TIME_FACTOR, scenarioAlarm]

lemma sortSpawns_t9 : sortSpawns scenarioAlarm 32400000 [8, 20] = [8, 20] := by
  norm_num [sortSpawns, List.insertionSort, List.orderedInsert, spawnCmpLT, getMinutesBefore,
    gmbResMinutes, gmbResSeconds, gmbResHours, jsMod, hourOf, minuteOf, secondOf,
    EPOCH_TIME_FACTOR, scenarioAlarm]

lemma gmb_t9_open : getMinutesBefore 32400000 ⟨8, 0, 10⟩ 0 = 1380 := by
  norm_num [getMinutesBefore, gmbResMinutes, gmbResSeconds, gmbResHours, jsMod, hourOf,
    minuteOf, secondOf, EPOCH_TIME_FACTOR]

lemma gmb_t9_close : getMinutesBefore 32400000 ⟨10, 0, 10⟩ 0 = 60 := by
  norm_num [getMinutesBefore, gmbResMinutes, gmbResSeconds, gmbResHours, jsMod, hourOf,
    minuteOf, secondOf, EPOCH_TIME_FACTOR]

lemma gmb_t8_open : getMinutesBefore 28800000 ⟨8, 0, 10⟩ 0 = 0 := by
  norm_num [getMinutesBefore, gmbResMinutes, gmbResSeconds, gmbResHours, jsMod, hourOf,
    minuteOf, secondOf, EPOCH_TIME_FACTOR]

lemma gmb_t8_close : getMinutesBefore 28800000 ⟨10, 0, 10⟩ 0 = 120 := by
  norm_num [getMinutesBefore, gmbResMinutes, gmbResSeconds, gmbResHours, jsMod, hourOf,
    minuteOf, secondOf, EPOCH_TIME_FACTOR]

lemma gmb_overlap : getMinutesBefore 82800000 ⟨0, -1, 2⟩ 0 = -10 := by
  norm_num [getMinutesBefore, gmbResMinutes, gmbResSeconds, gmbResHours, jsMod, hourOf,
    minuteOf, secondOf, EPOCH_TIME_FACTOR]

lemma getNextSpawn_eq_head (ws : WeatherService) (fuel : Nat) (a : Alarm) (t : Nat)
    (l : List Nat) (hsp : a.spawns = some l) (hw : a.weathers = none) :
    getNextSpawn ws fuel a t =
      (sortSpawns a t l).head?.map fun h => ⟨h, 0, (h + a.duration) % 24⟩ := by
  simp only [getNextSpawn, hsp, hw, Option.isSome_none, Bool.false_eq_true, if_false]

lemma getNextSpawn_t21 : getNextSpawn dummyWs 1 scenarioAlarm 75600000 = some ⟨20, 0, 22⟩ := by
  rw [getNextSpawn_eq_head dummyWs 1 scenarioAlarm 75600000 [8, 20] rfl rfl, sortSpawns_t21]
  rfl

lemma getNextSpawn_t9 : getNextSpawn dummyWs 1 scenarioAlarm 32400000 = some ⟨8, 0, 10⟩ := by
  rw [getNextSpawn_eq_head dummyWs 1 scenarioAlarm 32400000 [8, 20] rfl rfl, sortSpawns_t9]
  rfl

lemma getNextSpawn_t8 : getNextSpawn dummyWs 1 hour8Alarm 28800000 = some ⟨8, 0, 10⟩ := rfl

lemma getNextSpawn_overlap :
    getNextSpawn overlapWs 1 midnightAlarm 82800000 = some ⟨0, -1, 2⟩ := rfl

/-- The display built for the weather pattern of the overlap scenario. -/
def overlapDisplay : AlarmDisplay := ⟨midnightAlarm, false, true, -35 / 72, ⟨0, -1, 2⟩⟩

lemma createDisplay_t9 :
    createDisplay dummyWs 1 oneHourSettings scenarioAlarm 32400000 = some scenarioDisplay9 := by
  rw [createDisplay_eq dummyWs 1 oneHourSettings scenarioAlarm 32400000 ⟨8, 0, 10⟩
    getNextSpawn_t9]
  have hspawn : spawnedAt 32400000 (⟨8, 0, 10⟩ : NextSpawn) = true := by decide
  norm_num [hspawn, scenarioDisplay9, scenarioAlarm, oneHourSettings, toEarthTime,
    EPOCH_TIME_FACTOR, gmb_t9_open, gmb_t9_close]

lemma createDisplay_t8 :
    createDisplay dummyWs 1 oneHourSettings hour8Alarm 28800000 = some hour8Display := by
  rw [createDisplay_eq dummyWs 1 oneHourSettings hour8Alarm 28800000 ⟨8, 0, 10⟩
    getNextSpawn_t8]
  have hspawn : spawnedAt 28800000 (⟨8, 0, 10⟩ : NextSpawn) = true := by decide
  norm_num [hspawn, hour8Display, hour8Alarm, oneHourSettings, toEarthTime,
    EPOCH_TIME_FACTOR, gmb_t8_open, gmb_t8_close]

lemma createDisplay_overlap :
    createDisplay overlapWs 1 zeroSettings midnightAlarm 82800000 = some overlapDisplay := by
  rw [createDisplay_eq overlapWs 1 zeroSettings midnightAlarm 82800000 ⟨0, -1, 2⟩
    getNextSpawn_overlap]
  have hspawn : spawnedAt 82800000 (⟨0, -1, 2⟩ : NextSpawn) = false := by decide
  norm_num [hspawn, overlapDisplay, midnightAlarm, zeroSettings, toEarthTime,
    EPOCH_TIME_FACTOR, gmb_overlap]

/-- C1, counterexample: with the scenario pattern (spawn hours 8 and 20,
duration 2) and a now of hour 21 of day zero, the resolver does not return
the hour 8 slot with despawn hour 10 and day offset 1 stated by the claim. -/
theorem c1_counterexample :
    getNextSpawn dummyWs 1 scenarioAlarm 75600000 ≠ some ⟨8, 1, 10⟩ := by
  rw [getNextSpawn_t21]
  decide

/-- C1, amended: with the scenario pattern and a now of hour 21 the resolver
returns the hour 20 slot with despawn hour 22 and a day offset of 0 (the
window from 20 to 22 is open at hour 21, so the alarm is reported spawned);
the non-weather resolver never reports a day offset other than 0. -/
theorem c1_hour21_resolution :
    getNextSpawn dummyWs 1 scenarioAlarm 75600000 = some ⟨20, 0, 22⟩ ∧
      isSpawned dummyWs 1 scenarioAlarm 75600000 = some true := by
  refine ⟨getNextSpawn_t21, ?_⟩
  unfold isSpawned
  rw [getNextSpawn_t21]
  decide

/-- C2: for a valid non-weather pattern, whenever the hour of now lies
inside the resolved window under wraparound-aware containment, the display
built for the pattern carries a true spawned flag. -/
theorem c2_spawned_inside_window (ws : WeatherService) (fuel : Nat) (a : Alarm) (t : Nat)
    (l : List Nat) (s : Settings) (ns : NextSpawn) (d : AlarmDisplay)
    (hw : a.weathers = none) (hsp : a.spawns = some l) (hlt : ∀ h ∈ l, h < 24)
    (hd1 : 1 ≤ a.duration) (hd2 : a.duration ≤ 23)
    (hg : getNextSpawn ws fuel a t = some ns)
    (hin : inWindow (hourOf t) ns.hours ns.despawn)
    (hc : createDisplay ws fuel s a t = some d) :
    d.spawned = true := by
  obtain ⟨h0, hh, hns⟩ := getNextSpawn_nonweather ws fuel a t l hsp hw ns hg
  have hmem := mem_of_sortSpawns_head a t l h0 hh
  have hh0 : h0 < 24 := hlt h0 hmem
  have hdsp : (h0 + a.duration) % 24 < 24 := Nat.mod_lt _ (by norm_num)
  have hne : h0 ≠ (h0 + a.duration) % 24 := by omega
  subst hns
  have hs : spawnedAt t ⟨h0, 0, (h0 + a.duration) % 24⟩ = true :=
    spawnedAt_true_of_inWindow t _ rfl hh0 hdsp hne hin
  rw [createDisplay_eq ws fuel s a t _ hg] at hc
  have hd3 : d = _ := (Option.some.inj hc).symm
  rw [hd3]
  exact hs

/-- C2, witness: the scenario pattern at hour 9 of day zero (inside the
resolved window from hour 8 to hour 10) yields a display whose spawned flag
is true. -/
theorem c2_witness : scenarioDisplay9.spawned = true :=
  c2_spawned_inside_window dummyWs 1 scenarioAlarm 32400000 [8, 20] oneHourSettings
    ⟨8, 0, 10⟩ scenarioDisplay9 rfl rfl (by decide) (by decide) (by decide)
    getNextSpawn_t9 (by decide) createDisplay_t9

/-- C3, counterexample: on a weather timeline that never yields a matching
combination, the search is still running after 20 rounds (each round
advances the searched day by one, so this is far past a 14 day lookahead)
and no value resembling a scheduling timeout failure is ever produced: the
source simply recurses again. -/
theorem c3_counterexample : getNextSpawn mismatchWs 20 mismatchAlarm 0 = none :=
  mismatch_getNextSpawn 20

/-- C3, amended: the weather search has no lookahead bound and no timeout
failure: on a timeline that never yields a matching combination, one round
always advances the search start by exactly one day past the latest known
occurrence and recurses, and the search never returns a result no matter how
many rounds it is allowed to run. -/
theorem c3_unbounded_search (fuel n : Nat) :
    findWeatherSpawnCombination mismatchWs mismatchAlarm [23] 0 (fuel + 1) (n * 86400000) =
      findWeatherSpawnCombination mismatchWs mismatchAlarm [23] 0 fuel ((n + 1) * 86400000) ∧
    findWeatherSpawnCombination mismatchWs mismatchAlarm [23] 0 fuel (n * 86400000) = none :=
  ⟨mismatch_round fuel n, mismatch_search_none fuel n⟩

/-- C4, counterexample: a pattern with duration 0 (outside the documented
range of 1 to 23) is not rejected: the resolver proceeds and returns a
normal result instead of an invalid pattern failure. -/
theorem c4_counterexample :
    getNextSpawn dummyWs 1 zeroDurationAlarm 0 = some ⟨8, 0, 8⟩ := rfl

/-- C4, amended: the resolver performs no validation at all: a pattern with
an out of range duration resolves normally, and a pattern with an empty
spawns array yields an undefined result (modelled as none) rather than an
invalid pattern failure; no error value exists in the source. -/
theorem c4_no_validation (ws : WeatherService) (fuel t : Nat) :
    getNextSpawn ws fuel emptySpawnsAlarm t = none ∧
      getNextSpawn ws fuel zeroDurationAlarm t = some ⟨8, 0, 8⟩ := by
  constructor
  · simp [getNextSpawn, emptySpawnsAlarm, sortSpawns, List.insertionSort]
  · simp [getNextSpawn, zeroDurationAlarm, sortSpawns, List.insertionSort, List.orderedInsert]

/-- C5, counterexample: for a weather gated pattern whose matching weather
occurrence started the day before the resolved spawn hour aligns, the
display carries a negative remaining time. -/
theorem c5_counterexample :
    (createDisplay overlapWs 1 zeroSettings midnightAlarm 82800000).map
        AlarmDisplay.remainingTime = some (-35 / 72) ∧ ((-35 / 72 : ℚ) < 0) := by
  rw [createDisplay_overlap]
  norm_num [overlapDisplay]

/-- C5, amended: for every pattern without weather requirement (where the
resolved day offset is always 0) the remaining time of the built display is
non-negative; a weather gated pattern can resolve to a negative day offset
and then produce a negative remaining time. -/
theorem c5_nonneg_nonweather (ws : WeatherService) (fuel : Nat) (s : Settings) (a : Alarm)
    (t : Nat) (d : AlarmDisplay) (hw : a.weathers = none)
    (hc : createDisplay ws fuel s a t = some d) :
    0 ≤ d.remainingTime := by
  cases hg : getNextSpawn ws fuel a t with
  | none =>
    rw [createDisplay, isSpawned, hg] at hc
    simp at hc
  | some ns =>
    have hdays : ns.days = 0 := getNextSpawn_days_zero ws fuel a t ns hw hg
    rw [createDisplay_eq ws fuel s a t ns hg] at hc
    have hd3 : d = _ := (Option.some.inj hc).symm
    rw [hd3]
    apply toEarthTime_nonneg
    cases hspw : spawnedAt t ns
    · simp only [hspw, Bool.false_eq_true, if_false]
      exact getMinutesBefore_nonneg t ns (by omega)
    · simp only [hspw, if_true]
      exact getMinutesBefore_nonneg t ⟨(ns.hours + a.duration) % 24, ns.days, ns.despawn⟩
        (by simp [hdays])

/-- C5, witness for the amended theorem: the scenario pattern at hour 9 has
a non-negative remaining time. -/
theorem c5_witness : 0 ≤ scenarioDisplay9.remainingTime :=
  c5_nonneg_nonweather dummyWs 1 oneHourSettings scenarioAlarm 32400000 scenarioDisplay9
    rfl createDisplay_t9

/-- C6: in every output of the display sort, a spawned entry never follows a
non-spawned entry, and within the spawned part and the non-spawned part the
remaining times are non-decreasing (the ordering dispLE holds pairwise along
the output). -/
theorem c6_sorted (l : List AlarmDisplay) : (sortAlarmDisplays l).Pairwise dispLE :=
  sortAlarmDisplays_pairwise l

/-- C7, counterexample: at the instant the window of the single-hour pattern
opens (hour 8 sharp) the display is both spawned and played, refuting the
part of the claim by which a currently spawned alarm is never marked
played. -/
theorem c7_counterexample :
    (createDisplay dummyWs 1 oneHourSettings hour8Alarm 28800000).map
      (fun d => d.spawned && d.played) = some true := by
  rw [createDisplay_t8]
  rfl

/-- C7, amended: the played flag is true exactly when the Eorzean minutes
before the resolved next spawn hour are strictly below the lead time setting
times 60; the spawned state and the displayed remaining time are not
consulted, so a spawned alarm can be marked played at the same time. -/
theorem c7_played_iff (ws : WeatherService) (fuel : Nat) (s : Settings) (a : Alarm)
    (t : Nat) (ns : NextSpawn) (d : AlarmDisplay)
    (hg : getNextSpawn ws fuel a t = some ns)
    (hc : createDisplay ws fuel s a t = some d) :
    d.played = true ↔ getMinutesBefore t ns 0 < s.alarmHoursBefore * 60 := by
  rw [createDisplay_eq ws fuel s a t ns hg] at hc
  have hd3 : d = _ := (Option.some.inj hc).symm
  rw [hd3]
  simp

/-- C7, witness for the amended theorem: at hour 8 sharp the single-hour
pattern is played because 0 minutes remain before its spawn hour, below the
lead time of 60 minutes. -/
theorem c7_witness :
    hour8Display.played = true ↔
      getMinutesBefore 28800000 ⟨8, 0, 10⟩ 0 < oneHourSettings.alarmHoursBefore * 60 :=
  c7_played_iff dummyWs 1 oneHourSettings hour8Alarm 28800000 ⟨8, 0, 10⟩ hour8Display
    getNextSpawn_t8 createDisplay_t8

/-- C8, counterexample: two non-spawned displays with equal remaining time
are swapped by the sort instead of keeping their input order. -/
theorem c8_counterexample :
    sortAlarmDisplays [tieDisplayA, tieDisplayB] = [tieDisplayB, tieDisplayA] ∧
      [tieDisplayB, tieDisplayA] ≠ [tieDisplayA, tieDisplayB] := by
  constructor
  · decide
  · decide

/-- C8, amended: the sort is a deterministic function of the input list, but
the comparator never returns 0, so ties are not kept in input order: two
displays of the same partition with equal remaining time always come out
swapped. -/
theorem c8_tie_swapped (x y : AlarmDisplay) (hx : x.spawned = false)
    (hy : y.spawned = false) (hrt : x.remainingTime = y.remainingTime) :
    sortAlarmDisplays [x, y] = [y, x] := by
  unfold sortAlarmDisplays
  simp [List.insertionSort, List.orderedInsert, cmpDisplayLT, hx, hy, hrt]

/-- C8, witness for the amended theorem: the two concrete tied displays come
out swapped. -/
theorem c8_witness : sortAlarmDisplays [tieDisplayA, tieDisplayB] = [tieDisplayB, tieDisplayA] :=
  c8_tie_swapped tieDisplayA tieDisplayB rfl rfl rfl

/-- C9, counterexample: resolving the scenario pattern at hour 21 leaves the
pattern record changed: its spawn hours array has been sorted in place by
`Array.prototype.sort`, so the record after the call differs from the input
record. -/
theorem c9_counterexample :
    (resolveAlarmState dummyWs 1 scenarioAlarm 75600000).2 ≠ scenarioAlarm := by
  unfold resolveAlarmState
  simp only [scenarioAlarm]
  rw [show sortSpawns ⟨1, 0, some [8, 20], 2, none⟩ 75600000 [8, 20] = [20, 8] from
    sortSpawns_t21]
  decide

/-- C9, amended: resolving a pattern sorts its spawn hours array in place:
afterwards the pattern record holds the comparator-sorted permutation of its
original spawn hours, and no other field changes. -/
theorem c9_inplace_sort (ws : WeatherService) (fuel : Nat) (a : Alarm) (t : Nat)
    (l : List Nat) (h : a.spawns = some l) :
    (resolveAlarmState ws fuel a t).2 = { a with spawns := some (sortSpawns a t l) } ∧
      (sortSpawns a t l).Perm l := by
  constructor
  · unfold resolveAlarmState
    simp only [h]
  · exact List.perm_insertionSort _ l

/-- C9, witness for the amended theorem: the concrete in-place sort of the
scenario pattern. -/
theorem c9_witness :
    (resolveAlarmState dummyWs 1 scenarioAlarm 75600000).2 =
      { scenarioAlarm with
        spawns := some (sortSpawns scenarioAlarm 75600000 [8, 20]) } ∧
      (sortSpawns scenarioAlarm 75600000 [8, 20]).Perm [8, 20] :=
  c9_inplace_sort dummyWs 1 scenarioAlarm 75600000 [8, 20] rfl

/-- C10: an alarm whose spawns property is undefined is silently dropped
when building the display array: the output for a list starting with such an
alarm is the output for the rest of the list, with no display and no
failure contributed by the dropped alarm. -/
theorem c10_undefined_spawns_skipped (ws : WeatherService) (fuel : Nat) (s : Settings)
    (a : Alarm) (rest : List Alarm) (t : Nat) (h : a.spawns = none) :
    createDisplayArray ws fuel s (a :: rest) t = createDisplayArray ws fuel s rest t := by
  unfold createDisplayArray
  rw [List.filter_cons]
  simp [h]

/-- C10, witness: dropping the concrete alarm without spawns in front of the
single-hour pattern changes nothing. -/
theorem c10_witness :
    createDisplayArray dummyWs 1 oneHourSettings (noSpawnsAlarm :: [hour8Alarm]) 0 =
      createDisplayArray dummyWs 1 oneHourSettings [hour8Alarm] 0 :=
  c10_undefined_spawns_skipped dummyWs 1 oneHourSettings noSpawnsAlarm [hour8Alarm] 0 rfl
